import Mathlib

/-!
Shallow embedding of the `monadologia` world-simulation engine
(`src/server/engine/*.py`) and verification of its specification claims.

Conventions used throughout:
* Python `int` is modelled as `Int` (arbitrary precision, may go negative,
  exactly as in CPython).
* Python `dict` (insertion-ordered) is modelled as an association list
  `List (String × α)`; `dict.get(k, d)` becomes `pyGet`, assignment becomes
  `pySet` (update in place, or append preserving insertion order).
* Python's global `random` draws are modelled as explicit oracle inputs:
  `random.random()` becomes a rational `q : ℚ` compared against the same
  thresholds, `random.randint(a, b)` / `random.choice(xs)` become explicit
  integer / index inputs.  Theorems quantify over all oracle values.
* Mutation of a shared object is modelled by explicit state passing: a
  Python method that mutates `self`/arguments and returns a result is a
  Lean function returning the new state(s) together with the result.
-/

namespace Monadologia

/-- Python `d.get(k, default)` on an insertion-ordered dict. -/
def pyGet (l : List (String × α)) (k : String) (default : α) : α :=
  match l.find? (fun p => p.1 == k) with
  | some p => p.2
  | none => default

/-- Python `d.get(k)` (returns `None` when absent). -/
def pyGet? (l : List (String × α)) (k : String) : Option α :=
  (l.find? (fun p => p.1 == k)).map (·.2)

/-- Python `d[k] = v`: overwrite in place if the key exists,
append otherwise (insertion order preserved). -/
def pySet (l : List (String × α)) (k : String) (v : α) : List (String × α) :=
  match l with
  | [] => [(k, v)]
  | (k', v') :: rest =>
    if k' == k then (k', v) :: rest else (k', v') :: pySet rest k v

/-- Python `del d[k]`. -/
def pyDel (l : List (String × α)) (k : String) : List (String × α) :=
  l.filter (fun p => ¬ p.1 == k)

/-- The key list of `{k: ... for k in keys}`: duplicates collapse onto the
first occurrence. -/
def pyDedup : List String → List String
  | [] => []
  | k :: rest => k :: (pyDedup rest).filter (fun k' => ¬ k' == k)

/-- Python `random.choice(xs)` with the oracle index `i`; total via wrap-around
(the call sites only invoke it on non-empty lists). -/
def pyChoice (xs : List α) (i : Nat) (default : α) : α :=
  xs.getD (i % xs.length) default

/-- Python `max(xs, key=f)`: first element attaining the maximal key.
`none` on an empty list (where Python raises `ValueError`). -/
def pyMaxBy (f : α → Int) : List α → Option α
  | [] => none
  | x :: rest =>
    match pyMaxBy f rest with
    | none => some x
    | some y => if f y > f x then some y else some x

-- ═══════════════════════════════════════════════════════════
-- agents.py — the Agent entity (fields used by the engines below;
-- presentation-only fields such as `api_key`, `wallet_address` and the
-- float `mon_earned` bookkeeping are not referenced by any claim's code)
-- ═══════════════════════════════════════════════════════════

/-- Dataclass `Relationship` from `agents.py`. -/
structure Relationship where
  target_id : String
  affinity : Int := 0
  interactions : Nat := 0
  history : List String := []
deriving Repr, DecidableEq

/-- Dataclass `Agent` from `agents.py`.  `personality` and `mood` are the
string values of the Python enums; `stats` is the stat dict. -/
structure Agent where
  id : String
  name : String
  personality : String
  stats : List (String × Int)
  mood : String := "happy"
  location : String := "lobby"
  floor : String := "lobby"
  relationships : List (String × Relationship) := []
  inventory : List String := []
  clout : Int := 0
  func_tokens : Int := 100
  active : Bool := true
  gossip_heard : List String := []
  faction : Option String := none
deriving Repr, DecidableEq

/-- Method `Agent.modify_relationship` from `agents.py`: clamp affinity to
[-100, 100], bump the interaction count, append to a history capped at 20. -/
def Agent.modify_relationship (a : Agent) (target_id : String) (delta : Int)
    (event : String) : Agent :=
  let rel := pyGet a.relationships target_id { target_id := target_id }
  let hist := rel.history ++ [event]
  let rel' : Relationship :=
    { rel with
      affinity := max (-100) (min 100 (rel.affinity + delta))
      interactions := rel.interactions + 1
      history := if hist.length > 20 then hist.drop (hist.length - 20) else hist }
  { a with relationships := pySet a.relationships target_id rel' }

-- ═══════════════════════════════════════════════════════════
-- economy.py — FUNC token ledger
-- ═══════════════════════════════════════════════════════════

namespace Economy

/-- Function `transfer_func` from `economy.py`, acting on the two balances.
Returns `(success, senderAfter, receiverAfter)`. -/
def transfer_func (senderTokens receiverTokens amount : Int) :
    Bool × Int × Int :=
  if senderTokens ≥ amount ∧ amount > 0 then
    (true, senderTokens - amount, receiverTokens + amount)
  else
    (false, senderTokens, receiverTokens)

end Economy

-- ═══════════════════════════════════════════════════════════
-- trading.py — trade offers and the marketplace
-- ═══════════════════════════════════════════════════════════

namespace Trading

/-- The `offering` / `asking` payload dicts of a `TradeOffer`
(`{"type": "item|func|artifact", "id": ..., "amount": ...}`). -/
inductive TradeSpec where
  | func (amount : Int)
  | item (id : String)
  | artifact (id : String)
deriving Repr, DecidableEq

/-- Dataclass `TradeOffer` from `trading.py`. -/
structure TradeOffer where
  id : String
  seller_id : String
  seller_name : String
  offering : TradeSpec
  asking : TradeSpec
  status : String := "open"
  buyer_id : Option String := none
  buyer_name : Option String := none
  created_tick : Nat := 0
  resolved_tick : Nat := 0
deriving Repr, DecidableEq

/-- One entry of `TradingEngine.transaction_history` (the three record
shapes appended by `accept_trade`, `buy_from_market`, `sell_to_market`). -/
inductive Txn where
  | trade (trade_id seller buyer : String) (offering payment : TradeSpec) (tick : Nat)
  | market_buy (agent item : String) (price : Int) (tick : Nat)
  | market_sell (agent item : String) (price : Int) (tick : Nat)
deriving Repr, DecidableEq

/-- One catalog entry of `MARKET_ITEMS`. -/
structure MarketItem where
  name : String
  base_price : Int
  description : String
  category : String
deriving Repr, DecidableEq

/-- The `MARKET_ITEMS` catalog from `trading.py`. -/
def MARKET_ITEMS : List (String × MarketItem) :=
  [ ("karaoke_mic", ⟨"Karaoke Mic", 15, "For impromptu performances. +10 party energy.", "party"⟩),
    ("mystery_sauce", ⟨"Mystery Sauce", 8, "Nobody knows what\x27s in it. Cooking ingredient.", "cooking"⟩),
    ("disco_ball", ⟨"Disco Ball", 20, "Turns any room into a dance floor. +15 party fun.", "party"⟩),
    ("spy_kit", ⟨"Spy Kit", 25, "Binoculars, fake mustache, notepad. +2 creativity for scheming.", "utility"⟩),
    ("megaphone", ⟨"Megaphone", 12, "For dramatic announcements. +2 drama.", "utility"⟩),
    ("confetti_cannon", ⟨"Confetti Cannon", 18, "One shot of pure celebration. +20 party energy.", "party"⟩),
    ("mood_ring", ⟨"Mood Ring", 10, "Shows your current mood (unreliably). +1 charisma.", "accessory"⟩),
    ("fortune_cookie", ⟨"Fortune Cookie", 5, "Contains cryptic wisdom. May or may not be useful.", "consumable"⟩),
    ("glow_stick", ⟨"Glow Stick Bundle", 8, "For raves and emergencies. +10 party chaos.", "party"⟩),
    ("golden_spatula", ⟨"Golden Spatula", 30, "Legendary cooking tool. +3 purity for cooking.", "cooking"⟩),
    ("tinfoil_hat", ⟨"Tinfoil Hat", 7, "Protection from... something. +2 chaos, -1 purity.", "accessory"⟩),
    ("friendship_bracelet", ⟨"Friendship Bracelet Kit", 10, "Make friendship bracelets! +5 relationship with recipient.", "social"⟩) ]

/-- Mutable state of `TradingEngine` (`market_supply` is randomized at
construction time, so it is part of the state, not a constant). -/
structure TradingEngine where
  open_trades : List (String × TradeOffer) := []
  completed_trades : List TradeOffer := []
  market_prices : List (String × Int) :=
    MARKET_ITEMS.map (fun p => (p.1, p.2.base_price))
  market_supply : List (String × Int) := []
  transaction_history : List Txn := []
deriving Repr, DecidableEq

/-- CPython `int(p * 1.3)` for the integer prices that occur here: the
product is computed in binary64 and truncated toward zero, which for the
catalog's price range coincides with truncated division `(13 * p) / 10`. -/
def pyInt13TenthsOf (p : Int) : Int := (13 * p).tdiv 10

/-- Result shape `{"success": ..., "error": ...}` common to the engine's
command methods. -/
structure OpResult where
  success : Bool
  error : Option String := none
deriving Repr, DecidableEq

/-- Method `TradingEngine.accept_trade` from `trading.py` (lines 179-245).
Returns the new engine state, the new buyer, the new seller, and the
result dict. -/
def accept_trade (eng : TradingEngine) (buyer : Agent) (trade_id : String)
    (seller_agent : Agent) (tick : Nat) :
    TradingEngine × Agent × Agent × OpResult :=
  match pyGet? eng.open_trades trade_id with
  | none => (eng, buyer, seller_agent, ⟨false, some "Trade not available"⟩)
  | some trade =>
    if trade.status ≠ "open" then
      (eng, buyer, seller_agent, ⟨false, some "Trade not available"⟩)
    else if trade.seller_id = buyer.id then
      (eng, buyer, seller_agent, ⟨false, some "Can\x27t buy your own trade"⟩)
    else
      -- Validate buyer can pay (only checked for a FUNC asking price)
      let askingBlocked : Option Int :=
        match trade.asking with
        | .func amount => if buyer.func_tokens < amount then some amount else none
        | _ => none
      match askingBlocked with
      | some amount =>
        (eng, buyer, seller_agent,
          ⟨false, some ("Not enough FUNC (have " ++ toString buyer.func_tokens
            ++ ", need " ++ toString amount ++ ")")⟩)
      | none =>
        -- Transfer offering (seller → buyer)
        let (seller1, buyer1) :=
          match trade.offering with
          | .func amount =>
            ({ seller_agent with func_tokens := seller_agent.func_tokens - amount },
             { buyer with func_tokens := buyer.func_tokens + amount })
          | .item item_id =>
            if item_id ∈ seller_agent.inventory then
              ({ seller_agent with inventory := seller_agent.inventory.erase item_id },
               { buyer with inventory := buyer.inventory ++ [item_id] })
            else (seller_agent, buyer)
          | .artifact _ => (seller_agent, buyer)
        -- Transfer payment (buyer → seller)
        let (buyer2, seller2) :=
          match trade.asking with
          | .func amount =>
            ({ buyer1 with func_tokens := buyer1.func_tokens - amount },
             { seller1 with func_tokens := seller1.func_tokens + amount })
          | _ => (buyer1, seller1)
        let trade' := { trade with
          status := "accepted"
          buyer_id := some buyer.id
          buyer_name := some buyer.name
          resolved_tick := tick }
        -- Build relationship
        let buyer3 := buyer2.modify_relationship seller_agent.id 5 "Traded with them"
        let seller3 := seller2.modify_relationship buyer.id 5 "Traded with them"
        let eng' := { eng with
          open_trades := pyDel eng.open_trades trade_id
          completed_trades := eng.completed_trades ++ [trade']
          transaction_history := eng.transaction_history
            ++ [Txn.trade trade.id seller_agent.name buyer.name
                  trade.offering trade.asking tick] }
        (eng', buyer3, seller3, ⟨true, none⟩)

/-- Method `TradingEngine.buy_from_market` from `trading.py` (lines 247-290).
Note the source's dead branch: `if supply <= 2: price *= 1.3` is checked
BEFORE `elif supply <= 0: price *= 2.0`, so the `* 2.0` arm never runs. -/
def buy_from_market (eng : TradingEngine) (agent : Agent) (item_id : String)
    (tick : Nat) : TradingEngine × Agent × OpResult :=
  match pyGet? MARKET_ITEMS item_id with
  | none => (eng, agent, ⟨false, some ("Unknown item: " ++ item_id)⟩)
  | some info =>
    let supply := pyGet eng.market_supply item_id 0
    if supply ≤ 0 then
      (eng, agent, ⟨false, some (info.name ++ " is out of stock")⟩)
    else
      let price := pyGet eng.market_prices item_id info.base_price
      if agent.func_tokens < price then
        (eng, agent,
          ⟨false, some ("Not enough FUNC (have " ++ toString agent.func_tokens
            ++ ", need " ++ toString price ++ ")")⟩)
      else
        -- Execute purchase
        let agent' := { agent with
          func_tokens := agent.func_tokens - price
          inventory := agent.inventory ++ [item_id] }
        let eng1 := { eng with
          market_supply := pySet eng.market_supply item_id
            (pyGet eng.market_supply item_id 0 - 1) }
        -- Dynamic pricing — price increases when supply drops
        let newSupply := pyGet eng1.market_supply item_id (0 : Int)
        let eng2 :=
          if newSupply ≤ 2 then
            { eng1 with
              market_prices := pySet eng1.market_prices item_id (pyInt13TenthsOf price) }
          else if newSupply ≤ 0 then
            { eng1 with
              market_prices := pySet eng1.market_prices item_id (price * 2) }
          else eng1
        let eng3 := { eng2 with transaction_history :=
          eng2.transaction_history ++ [Txn.market_buy agent.name item_id price tick] }
        (eng3, agent', ⟨true, none⟩)

end Trading

-- ═══════════════════════════════════════════════════════════
-- gossip.py — gossip chains (monadic bind)
-- ═══════════════════════════════════════════════════════════

namespace Gossip

/-- One entry of `GossipMessage.chain`
(`{agent_id, agent_name, personality, content, tick}`). -/
structure Link where
  agent_id : String
  agent_name : String
  personality : String
  content : String
  tick : Nat
deriving Repr, DecidableEq

/-- Dataclass `GossipMessage` from `gossip.py`. -/
structure GossipMessage where
  id : String
  origin_agent_id : String
  content : String
  credibility : Int := 50
  spiciness : Int := 30
  mutations : Nat := 0
  chain : List Link := []
  active : Bool := true
  created_tick : Nat := 0
deriving Repr, DecidableEq

/-- One entry of `GOSSIP_AMPLIFIERS`: credibility/spiciness deltas plus the
four phrasing templates (each template renders the current content into a
new phrase, Python's `template.format(content=...)`). -/
structure AmplifierConfig where
  credibility_mod : Int
  spiciness_mod : Int
  templates : List (String → String)

/-- Table `GOSSIP_AMPLIFIERS` from `gossip.py`, combined with the call
site's `.get(personality, GOSSIP_AMPLIFIERS["social_butterfly"])` default. -/
def GOSSIP_AMPLIFIERS (personality : String) : AmplifierConfig :=
  if personality = "schemer" then
    ⟨5, 10,
      [ fun c => "Interesting... so " ++ c ++ ". But have you asked yourself WHY?",
        fun c => c ++ ". Which is convenient, don\x27t you think?",
        fun c => "I did some digging. " ++ c ++ ". And that\x27s just the surface.",
        fun c => c ++ ". This changes everything if you think about it." ]⟩
  else if personality = "drama_queen" then
    ⟨-15, 30,
      [ fun c => "I am SHAKING. " ++ c ++ "!! This is the BIGGEST thing to happen here!!",
        fun c => "STOP EVERYTHING. " ++ c ++ ". I literally cannot right now.",
        fun c => c ++ "!!! And nobody is doing ANYTHING about it!!!",
        fun c => "I have been SAYING this — " ++ c ++ ". I ALWAYS knew!" ]⟩
  else if personality = "nerd" then
    ⟨20, -15,
      [ fun c => "Well, technically, " ++ c ++ ". Though I\x27d want to verify.",
        fun c => "From what I can gather, " ++ c ++ ". The evidence is circumstantial.",
        fun c => c ++ ". Statistically speaking, this checks out.",
        fun c => "I ran the numbers and " ++ c ++ ". Make of that what you will." ]⟩
  else if personality = "chaos_gremlin" then
    ⟨-20, 25,
      [ fun c => "LMAO so " ++ c ++ " and also the kitchen is on fire now",
        fun c => c ++ ". Anyway I mixed all the spices together and dared someone to eat it.",
        fun c => "hehehehe " ++ c ++ ". I may or may not have made it worse.",
        fun c => c ++ ". Unrelated: does anyone know how to un-clog a toilet?" ]⟩
  else if personality = "conspiracy_theorist" then
    ⟨-10, 20,
      [ fun c => "Think about it... " ++ c ++ ". Now connect that to the elevator always stopping on floor 2.",
        fun c => c ++ ". The Landlord doesn\x27t want you to know this.",
        fun c => "I\x27ve been tracking this. " ++ c ++ ". It\x27s all connected to the basement.",
        fun c => c ++ ". Coincidence? I\x27ve mapped it out. There are NO coincidences here." ]⟩
  else -- "social_butterfly" and the `.get` default
    ⟨-5, 15,
      [ fun c => "Oh my GOD — " ++ c ++ "! And EVERYONE is talking about it!",
        fun c => "So I heard " ++ c ++ ". Can you even BELIEVE that?!",
        fun c => c ++ " — and apparently it\x27s been going on for WEEKS!",
        fun c => "You didn\x27t hear this from me, but " ++ c ++ ". Wild, right?" ]⟩

/-- List `SPICY_MUTATIONS` from `gossip.py`. -/
def SPICY_MUTATIONS : List String :=
  [ "secretly", "allegedly", "according to multiple sources",
    "under mysterious circumstances", "while nobody was watching",
    "and it was caught on the security camera", "in what can only be described as chaos" ]

/-- Oracle for the three random draws inside `bind_gossip`:
`random.choice(templates)`, the `random.random() < 0.4` roll, and
`random.choice(SPICY_MUTATIONS)`. -/
structure GossipRand where
  templateIdx : Nat
  mutateRoll : ℚ
  mutationIdx : Nat

/-- Python `s.replace(".", repl, 1)`: replace the first "." only. -/
def replaceFirstDotAux (repl : List Char) : List Char → List Char
  | [] => []
  | c :: rest => if c = '.' then repl ++ rest else c :: replaceFirstDotAux repl rest

/-- String wrapper for `replaceFirstDotAux`. -/
def pyReplaceFirstDot (s repl : String) : String :=
  ⟨replaceFirstDotAux repl.data s.data⟩

/-- Function `bind_gossip` from `gossip.py`: thread the gossip through the
agent's personality, transforming content and the credibility/spiciness
state, and append a link. -/
def bind_gossip (gossip : GossipMessage) (agent : Agent) (tick : Nat)
    (r : GossipRand) : GossipMessage :=
  let personality := agent.personality
  let config := GOSSIP_AMPLIFIERS personality
  let template := pyChoice config.templates r.templateIdx id
  let current_content :=
    match gossip.chain.getLast? with
    | some l => l.content
    | none => gossip.content
  let new_content := template (current_content.map Char.toLower)
  let new_credibility := max 0 (min 100 (gossip.credibility + config.credibility_mod))
  let new_spiciness := max 0 (min 100 (gossip.spiciness + config.spiciness_mod))
  let new_content :=
    if new_spiciness > 70 ∧ r.mutateRoll < 2/5 then
      pyReplaceFirstDot new_content
        (" — " ++ pyChoice SPICY_MUTATIONS r.mutationIdx "" ++ ".")
    else new_content
  { gossip with
    chain := gossip.chain ++
      [⟨agent.id, agent.name, personality, new_content, tick⟩]
    credibility := new_credibility
    spiciness := new_spiciness
    mutations := gossip.mutations + 1 }

/-- Method `GossipEngine.start_chain`: a fresh active chain. -/
def start_chain (id agent_id content : String) (tick : Nat) : GossipMessage :=
  { id := id, origin_agent_id := agent_id, content := content,
    created_tick := tick }

/-- Set `chain_agents` used by `GossipEngine.propagate` (the agent ids with
a link in the chain). -/
def chainAgents (g : GossipMessage) : List String :=
  g.chain.map (·.agent_id)

/-- Method `GossipEngine.propagate` from `gossip.py` (lines 193-204),
acting on the chain the engine looked up: `none` when the chain is
inactive, when the agent is the originator, or when the agent already has
a link. -/
def propagate (g : GossipMessage) (agent : Agent) (tick : Nat)
    (r : GossipRand) : Option GossipMessage :=
  if ¬ g.active then none
  else if agent.id ∈ chainAgents g ∨ agent.id = g.origin_agent_id then none
  else some (bind_gossip g agent tick r)

/-- One operation applied to a single chain across its lifetime:
a player `spread_gossip` call (engine `propagate`), the orchestrator's
per-tick auto-spread (`Building.advance_tick`, `world.py` lines 957-987)
with its chosen target, location of the chain's last teller and the
`random.random() < 0.4` roll, or an explicit `deactivate`. -/
inductive ChainOp where
  | propagate (agent : Agent) (tick : Nat) (r : GossipRand)
  | autoSpread (target : Agent) (lastAgentLoc : String) (spreadRoll : Bool)
      (tick : Nat) (r : GossipRand)
  | deactivate

/-- Id of the chain's last teller (`gossip.chain[-1]["agent_id"] if
gossip.chain else gossip.origin_agent_id` in `Building.advance_tick`). -/
def lastTeller (g : GossipMessage) : String :=
  match g.chain.getLast? with
  | some l => l.agent_id
  | none => g.origin_agent_id

/-- Retirement check at the end of the per-chain tick work: "Gossip dies
if it is old or has reached many agents". -/
def retireIfStale (tick : Nat) (g : GossipMessage) : GossipMessage :=
  if g.mutations ≥ 8 ∨ tick - g.created_tick > 30 then { g with active := false }
  else g

/-- Apply one `ChainOp` to a chain.  A failed `propagate` leaves the chain
unchanged; `autoSpread` mirrors the `nearby` filter of
`Building.advance_tick` (same location as the last teller, not the last
teller, not already in the chain, not the originator) plus the 40% spread
roll, and the age/mutation-count retirement check that follows it. -/
def step (g : GossipMessage) : ChainOp → GossipMessage
  | .propagate agent tick r => (propagate g agent tick r).getD g
  | .autoSpread target lastLoc spreadRoll tick r =>
    if ¬ g.active then g
    else
      retireIfStale tick
        (if target.location = lastLoc ∧ target.id ≠ lastTeller g
            ∧ target.id ∉ chainAgents g ∧ target.id ≠ g.origin_agent_id
            ∧ spreadRoll
         then bind_gossip g target tick r
         else g)
  | .deactivate => { g with active := false }

/-- Run a sequence of chain operations. -/
def runOps (g : GossipMessage) (ops : List ChainOp) : GossipMessage :=
  ops.foldl step g

/-- Chain invariant of the claim: every agent id occurs at most once among
the links, and the originator never occurs. -/
def chainInv (g : GossipMessage) : Prop :=
  (chainAgents g).Nodup ∧ g.origin_agent_id ∉ chainAgents g

end Gossip

-- ═══════════════════════════════════════════════════════════
-- politics.py — proposals and voting
-- ═══════════════════════════════════════════════════════════

namespace Politics

/-- Dataclass `Proposal` from `politics.py`.  `votes` is the insertion-
ordered agent-id → choice dict; `faction_support` the faction → count
dict. -/
structure Proposal where
  id : String
  proposer_id : String
  proposer_name : String
  title : String
  description : String
  proposal_type : String := "decree"
  options : List String := ["yes", "no"]
  votes : List (String × String) := []
  faction_support : List (String × Int) := []
  status : String := "active"
  created_tick : Nat := 0
  resolved_tick : Nat := 0
  result : Option String := none
deriving Repr, DecidableEq

/-- Key order of the `_tally_votes` dict: the options (first occurrence
wins, as in `{opt: 0 for opt in options}`) followed by any voted choice
not among the options, in vote order (`tally.get(choice, 0) + 1` would add
such a key; `vote` validates choices, so this tail is empty in practice). -/
def tallyKeys (p : Proposal) : List String :=
  pyDedup (p.options ++ p.votes.map (·.2))

/-- Method `PoliticsEngine._tally_votes`: per-option vote counts. -/
def tally_votes (p : Proposal) : List (String × Nat) :=
  (tallyKeys p).map (fun opt => (opt, (p.votes.filter (fun v => v.2 == opt)).length))

/-- Quorum `min_votes = max(3, int(total_agents * 0.3))` from
`resolve_proposal`.  CPython computes `total_agents * 0.3` in binary64 and
`int()` truncates; for every realistic agent count (`total_agents <
10^14`) that equals the truncated rational `3 * total_agents / 10`, which
is what we use. -/
def min_votes (total_agents : Nat) : Nat := max 3 (3 * total_agents / 10)

/-- The resolution result dict returned by `resolve_proposal`. -/
structure ResolveInfo where
  proposal_id : String
  result : String
  status : String
  tally : List (String × Nat)
  faction_support : List (String × Int)
deriving Repr, DecidableEq

/-- Method `PoliticsEngine.resolve_proposal` from `politics.py` (lines
249-273), acting on the looked-up proposal; returns the result dict (or
`none`) together with the updated proposal.  `winner =
max(tally.items(), key=...)` takes the first maximal entry (Python `max`
semantics); on an empty tally (impossible via `create_proposal`, which
defaults empty option lists to `["yes", "no"]`) Python would raise, and we
return the proposal unchanged. -/
def resolve_proposal (p : Proposal) (total_agents : Nat) (tick : Nat) :
    Option ResolveInfo × Proposal :=
  if p.status ≠ "active" then (none, p)
  else if p.votes.length < min_votes total_agents then (none, p)
  else
    match pyMaxBy (fun x => (x.2 : Int)) (tally_votes p) with
    | none => (none, p)
    | some winner =>
      let p' := { p with
        result := some winner.1
        status := if winner.1 ≠ "no" then "passed" else "failed"
        resolved_tick := tick }
      (some ⟨p.id, winner.1, p'.status, tally_votes p, p.faction_support⟩, p')

end Politics

-- ═══════════════════════════════════════════════════════════
-- parties.py — vibe sequences (Kleisli arrows)
-- ═══════════════════════════════════════════════════════════

namespace Parties

/-- Enum `Vibe` from `parties.py`. -/
inductive Vibe where
  | chill | karaoke | drama | mystery | dance | debate | potluck
deriving Repr, DecidableEq

/-- Dataclass `PartyState` from `parties.py`.  The Python field `fun` is a
Lean keyword, hence `fun_`. -/
structure PartyState where
  energy : Int := 50
  chaos : Int := 20
  bonding : Int := 30
  fun_ : Int := 40
  vibe_log : List String := []
deriving Repr, DecidableEq

/-- Oracle for the random draws a single vibe function may make:
`random.randint(10, 100)` in `vibe_karaoke`, `random.random()` in
`vibe_mystery`, and the `random.choice` index in `vibe_drama` /
`vibe_debate`. -/
structure VibeRand where
  talent : Int
  roll : ℚ
  choiceIdx : Nat

/-- Totalizing default for `pyChoice` over agents (the call sites only
choose from lists they checked to be non-empty). -/
def noAgent : Agent := { id := "", name := "", personality := "", stats := [] }

/-- Kleisli arrows mutate the passed state in Python even when they return
`None`; each Lean vibe function therefore returns the mutated state
together with `true` (returned `state`) or `false` (returned `None`). -/
def vibe_chill (state : PartyState) (_attendees : List Agent) (_r : VibeRand) :
    PartyState × Bool :=
  ({ state with
      energy := max 10 (state.energy - 15)
      chaos := max 0 (state.chaos - 20)
      bonding := state.bonding + 15
      fun_ := state.fun_ + 5
      vibe_log := state.vibe_log ++ ["Everyone mellowed out. Good vibes. 🧘"] },
    true)

/-- Function `vibe_karaoke` from `parties.py`: fails (appending its
failure narration) when energy < 20. -/
def vibe_karaoke (state : PartyState) (attendees : List Agent) (r : VibeRand) :
    PartyState × Bool :=
  if state.energy < 20 then
    ({ state with vibe_log := state.vibe_log
        ++ ["Nobody had the energy for karaoke. The mic sat lonely on the table. 🎤💀"] },
      false)
  else
    let best_performer := pyMaxBy (fun a => pyGet a.stats "charisma" 5) attendees
    if r.talent > 70 then
      let performer_name := match best_performer with
        | some a => a.name
        | none => "Someone"
      ({ state with
          fun_ := state.fun_ + 30
          bonding := state.bonding + 20
          energy := state.energy + 10
          vibe_log := state.vibe_log
            ++ [performer_name ++ " CRUSHED the karaoke. Standing ovation. 🎤🔥"] },
        true)
    else if r.talent > 40 then
      ({ state with
          fun_ := state.fun_ + 15
          energy := state.energy + 5
          vibe_log := state.vibe_log
            ++ ["Karaoke was decent. A few bangers, a few... attempts. 🎤😅"] },
        true)
    else
      ({ state with
          chaos := state.chaos + 20
          fun_ := state.fun_ + 10
          vibe_log := state.vibe_log
            ++ ["The karaoke was objectively terrible. But somehow... iconic? 🎤💀🔥"] },
        true)

/-- Function `vibe_drama` from `parties.py`: fails when everyone is too
chill (chaos < 10 and energy < 25). -/
def vibe_drama (state : PartyState) (attendees : List Agent) (r : VibeRand) :
    PartyState × Bool :=
  if state.chaos < 10 ∧ state.energy < 25 then
    ({ state with vibe_log := state.vibe_log
        ++ ["Everyone was too zen for drama. Suspicious. 🤔"] },
      false)
  else
    let drama_agents := attendees.filter (fun a => pyGet a.stats "drama" 5 > 5)
    if drama_agents ≠ [] then
      let instigator := pyChoice drama_agents r.choiceIdx noAgent
      ({ state with
          chaos := state.chaos + 30
          energy := state.energy + 20
          fun_ := state.fun_ + 15
          bonding := state.bonding - 10
          vibe_log := state.vibe_log
            ++ [instigator.name ++ " started something. Alliances were tested. "
                ++ "Someone said something they can\x27t take back. 🍿💥"] },
        true)
    else
      ({ state with
          chaos := state.chaos + 15
          energy := state.energy + 10
          vibe_log := state.vibe_log
            ++ ["Mild drama. A passive-aggressive comment about dish duty. Classic. 😤"] },
        true)

/-- Function `vibe_mystery` from `parties.py`: always succeeds, branching
on `random.random()`. -/
def vibe_mystery (state : PartyState) (_attendees : List Agent) (r : VibeRand) :
    PartyState × Bool :=
  if r.roll < 3/10 then
    ({ state with
        chaos := state.chaos + 25
        fun_ := state.fun_ + 20
        vibe_log := state.vibe_log
          ++ ["The lights flickered. A note appeared under the door. "
              ++ "Nobody knows where it came from. 👁️✨"] },
      true)
  else if r.roll < 6/10 then
    ({ state with
        bonding := state.bonding + 25
        fun_ := state.fun_ + 15
        vibe_log := state.vibe_log
          ++ ["Someone found a hidden compartment in the wall. Inside: "
              ++ "a vintage board game. Everyone played. Best night ever. 🎲"] },
      true)
  else
    ({ state with
        chaos := state.chaos + 15
        energy := state.energy - 10
        vibe_log := state.vibe_log
          ++ ["An unexplained sound from the basement. Everyone got quiet. "
              ++ "Then pretended they didn\x27t hear it. 🔇👀"] },
      true)

/-- Function `vibe_dance` from `parties.py`: fails when energy < 30. -/
def vibe_dance (state : PartyState) (_attendees : List Agent) (_r : VibeRand) :
    PartyState × Bool :=
  if state.energy < 30 then
    ({ state with vibe_log := state.vibe_log
        ++ ["Nobody had legs left for dancing. The speakers played to an empty floor. 💃❌"] },
      false)
  else
    ({ state with
        energy := state.energy - 20
        fun_ := state.fun_ + 25
        bonding := state.bonding + 15
        chaos := state.chaos + 10
        vibe_log := state.vibe_log
          ++ ["The dance floor opened up. Moves were made. Reputations were built. 💃🕺✨"] },
      true)

/-- Function `vibe_debate` from `parties.py`: always succeeds. -/
def vibe_debate (state : PartyState) (attendees : List Agent) (r : VibeRand) :
    PartyState × Bool :=
  let nerds := attendees.filter (fun a => pyGet a.stats "purity" 5 > 6)
  let state1 := { state with
    energy := state.energy + 10
    chaos := state.chaos + 15 }
  if nerds ≠ [] then
    let debater := pyChoice nerds r.choiceIdx noAgent
    ({ state1 with
        fun_ := state1.fun_ + 10
        bonding := state1.bonding + 5
        vibe_log := state1.vibe_log
          ++ [debater.name ++ " initiated a philosophical debate. "
              ++ "\x27Is a hot dog a sandwich?\x27 It got heated. 🌭🧠"] },
      true)
  else
    ({ state1 with
        fun_ := state1.fun_ + 5
        vibe_log := state1.vibe_log
          ++ ["Someone tried to start a debate but everyone just vibed instead. 🤷"] },
      true)

/-- Function `vibe_potluck` from `parties.py`: always succeeds; the
average chaos stat (`sum / max(len, 1)`, exact in ℚ) picks the branch. -/
def vibe_potluck (state : PartyState) (attendees : List Agent) (_r : VibeRand) :
    PartyState × Bool :=
  let state1 := { state with
    bonding := state.bonding + 20
    fun_ := state.fun_ + 15 }
  let chaos_level : ℚ :=
    ((attendees.map (fun a => pyGet a.stats "chaos" 5)).sum : Int)
      / (max attendees.length 1 : Nat)
  if chaos_level > 6 then
    ({ state1 with
        chaos := state1.chaos + 20
        vibe_log := state1.vibe_log
          ++ ["The potluck was... adventurous. Someone brought \x27mystery casserole.\x27 "
              ++ "Two people are now bonded by shared food poisoning survival. 🍲😵"] },
      true)
  else
    ({ state1 with
        chaos := state1.chaos + 5
        vibe_log := state1.vibe_log
          ++ ["The potluck was genuinely lovely. Good food, good company. "
              ++ "The pasta was especially legendary. 🍝✨"] },
      true)

/-- Dispatch table `VIBE_FUNCTIONS` from `parties.py` (total, since the
Python dict has an entry for every `Vibe` member). -/
def VIBE_FUNCTIONS : Vibe → PartyState → List Agent → VibeRand → PartyState × Bool
  | .chill => vibe_chill
  | .karaoke => vibe_karaoke
  | .drama => vibe_drama
  | .mystery => vibe_mystery
  | .dance => vibe_dance
  | .debate => vibe_debate
  | .potluck => vibe_potluck

/-- The four-axis clamp applied before each vibe and once more after the
loop. -/
def clampAxes (s : PartyState) : PartyState :=
  { s with
    energy := max 0 (min 100 s.energy)
    chaos := max 0 (min 100 s.chaos)
    bonding := max 0 (min 100 s.bonding)
    fun_ := max 0 (min 100 s.fun_) }

/-- The `for vibe in vibes` loop of `kleisli_compose`: clamp, run the vibe
on the clamped state, continue on success, stop (keeping the mutated
state) on failure.  `k` indexes the per-step random oracle. -/
def composeLoop (attendees : List Agent) (rnd : Nat → VibeRand) :
    PartyState → List Vibe → Nat → PartyState
  | s, [], _ => s
  | s, v :: rest, k =>
    let res := VIBE_FUNCTIONS v (clampAxes s) attendees (rnd k)
    if res.2 then composeLoop attendees rnd res.1 rest (k + 1) else res.1

/-- Default `PartyState()` — the fixed start state of `kleisli_compose`. -/
def initialPartyState : PartyState := {}

/-- Function `kleisli_compose` from `parties.py` (lines 216-254): run the
loop from the default state, then re-clamp all four axes. -/
def kleisli_compose (vibes : List Vibe) (attendees : List Agent)
    (rnd : Nat → VibeRand) : PartyState :=
  clampAxes (composeLoop attendees rnd initialPartyState vibes 0)

/-- The narration a failable vibe appends when its precondition fails. -/
def failMsg : Vibe → String
  | .karaoke => "Nobody had the energy for karaoke. The mic sat lonely on the table. 🎤💀"
  | .drama => "Everyone was too zen for drama. Suspicious. 🤔"
  | .dance => "Nobody had legs left for dancing. The speakers played to an empty floor. 💃❌"
  | _ => ""

end Parties

-- ═══════════════════════════════════════════════════════════
-- combat.py — duels (best of three)
-- ═══════════════════════════════════════════════════════════

namespace Combat

/-- Per-round random oracle: the combat-stat choice, the two
`randint(-3, 3)` swings, the two `random.random()` ability-trigger rolls
and the two chaos-gremlin `randint(-5, 5)` wild bonuses. -/
structure RoundRand where
  statIdx : Nat
  cRand : Int
  dRand : Int
  cAbilityRoll : ℚ
  dAbilityRoll : ℚ
  cWild : Int
  dWild : Int

/-- List `combat_stats = ["charisma", "creativity", "drama", "chaos"]`. -/
def combat_stats : List String := ["charisma", "creativity", "drama", "chaos"]

/-- One entry of `DUEL_ABILITIES`. -/
structure DuelAbility where
  name : String
  description : String
  stat_boost : List (String × Int)
  trigger_chance : ℚ
  only_when_losing : Bool := false

/-- Table `DUEL_ABILITIES` from `combat.py` keyed by personality. -/
def DUEL_ABILITIES : String → Option DuelAbility
  | "social_butterfly" => some
    ⟨"Crowd Support", "Nearby agents cheer, giving +2 charisma bonus",
      [("charisma", 2)], 2/5, false⟩
  | "schemer" => some
    ⟨"Calculated Strike", "Pre-planned the entire duel. +3 creativity bonus",
      [("creativity", 3)], 1/2, false⟩
  | "drama_queen" => some
    ⟨"Dramatic Comeback", "When losing, dramatically rallies with +4 drama",
      [("drama", 4)], 3/10, true⟩
  | "nerd" => some
    ⟨"Statistical Advantage", "Calculated the optimal strategy. +2 to all stats",
      [("charisma", 2), ("creativity", 2), ("drama", 2), ("purity", 2)], 1/4, false⟩
  | "chaos_gremlin" => some
    ⟨"Wild Card", "Does something completely unpredictable. Random ±5 to random stat",
      [], 3/5, false⟩
  | "conspiracy_theorist" => some
    ⟨"Psychological Warfare",
      "Whispers something that makes opponent doubt everything. -2 to opponent\x27s purity",
      [], 7/20, false⟩
  | _ => none

/-- The `{"bonus": ..., "description": ...}` dict `_check_ability` returns. -/
structure TriggeredAbility where
  bonus : Int
  description : String
deriving Repr, DecidableEq

/-- Function `_check_ability` from `combat.py`: `none` when the
personality has no ability, the trigger roll misses, or a losing-only
ability fires while not losing. -/
def check_ability (agent : Agent) (is_losing : Bool) (roll : ℚ) (wild : Int) :
    Option TriggeredAbility :=
  match DUEL_ABILITIES agent.personality with
  | none => none
  | some ability =>
    if roll > ability.trigger_chance then none
    else if ability.only_when_losing ∧ ¬ is_losing then none
    else if agent.personality = "chaos_gremlin" then
      some ⟨wild,
        "🎲 WILD CARD! " ++ agent.name ++ " did something unpredictable! ("
          ++ (if wild > 0 then "+" else "") ++ toString wild ++ ")"⟩
    else if agent.personality = "conspiracy_theorist" then
      some ⟨2, "🔍 " ++ agent.name
        ++ " whispered something unsettling. Opponent doubts everything."⟩
    else
      some ⟨(ability.stat_boost.map (·.2)).sum,
        "⚡ " ++ ability.name ++ "! " ++ ability.description⟩

/-- One `round_data` dict of `resolve_duel`. -/
structure RoundData where
  round : Nat
  stat : String
  challenger_roll : Int
  defender_roll : Int
  winner : String
  challenger_ability : Option String
  defender_ability : Option String
deriving Repr, DecidableEq

/-- One side\'s roll in one round: stat base (default 5) plus the
`randint(-3, 3)` swing, plus the triggered ability bonus, plus the crowd
bonus for a social butterfly when more than 2 agents are nearby.  Applied
symmetrically to challenger and defender, exactly as the paired statements
in the loop body of `resolve_duel`. -/
def roundRoll (ag : Agent) (isLosing : Bool) (nearby_count : Nat)
    (stat : String) (randSwing : Int) (abilityRoll : ℚ) (wild : Int) : Int :=
  let base := pyGet ag.stats stat 5
  let roll1 := base + randSwing
    + (match check_ability ag isLosing abilityRoll wild with
        | some a => a.bonus
        | none => 0)
  if ag.personality = "social_butterfly" ∧ nearby_count > 2 then roll1 + 1
  else roll1

/-- One iteration of the `for round_num in range(1, 4)` loop body of
`resolve_duel`: stat pick, base + random rolls, ability bonuses, crowd
bonus, and the `>=` round-winner comparison. -/
def playRound (challenger defender : Agent) (round_num : Nat)
    (challenger_score defender_score : Nat) (nearby_count : Nat)
    (rr : RoundRand) : RoundData :=
  let stat := pyChoice combat_stats rr.statIdx "charisma"
  let c_roll := roundRoll challenger
    (decide (challenger_score < defender_score)) nearby_count stat
    rr.cRand rr.cAbilityRoll rr.cWild
  let d_roll := roundRoll defender
    (decide (defender_score < challenger_score)) nearby_count stat
    rr.dRand rr.dAbilityRoll rr.dWild
  { round := round_num
    stat := stat
    challenger_roll := c_roll
    defender_roll := d_roll
    winner := if c_roll ≥ d_roll then "challenger" else "defender"
    challenger_ability := (check_ability challenger
      (decide (challenger_score < defender_score)) rr.cAbilityRoll rr.cWild).map
      (·.description)
    defender_ability := (check_ability defender
      (decide (defender_score < challenger_score)) rr.dAbilityRoll rr.dWild).map
      (·.description) }

/-- The round loop of `resolve_duel` with its early exit ("If someone has
2 wins, they win").  `fuel` counts the remaining `range(1, 4)` iterations;
entered with `fuel = 3, round_num = 1`. -/
def duelLoop (challenger defender : Agent) (nearby_count : Nat)
    (rnd : Nat → RoundRand) :
    Nat → Nat → Nat → Nat → List RoundData → List RoundData × Nat × Nat
  | 0, _, cs, ds, acc => (acc, cs, ds)
  | fuel + 1, round_num, cs, ds, acc =>
    let rd := playRound challenger defender round_num cs ds nearby_count
      (rnd round_num)
    let cs' := if rd.winner = "challenger" then cs + 1 else cs
    let ds' := if rd.winner = "challenger" then ds else ds + 1
    if cs' ≥ 2 ∨ ds' ≥ 2 then (acc ++ [rd], cs', ds')
    else duelLoop challenger defender nearby_count rnd fuel (round_num + 1)
      cs' ds' (acc ++ [rd])

/-- The `spoils` dict of `resolve_duel`. -/
structure Spoils where
  func_transferred : Int
  clout_earned : Int := 15
  clout_lost : Int := 5
deriving Repr, DecidableEq

/-- Function `_narrate_duel` from `combat.py` (the `rounds` argument is
unused in the source body as well). -/
def narrate_duel (challenger defender : Agent) (_rounds : List RoundData)
    (c_score d_score : Nat) (challenger_won : Bool) : String :=
  let winner := if challenger_won then challenger else defender
  let loser := if ¬ challenger_won then challenger else defender
  if c_score = 2 ∧ d_score = 0 then
    "⚔️ " ++ winner.name ++ " DEMOLISHED " ++ loser.name
      ++ " in a flawless 2-0 victory! The " ++ winner.personality
      ++ " proved utterly dominant. " ++ loser.name ++ " may need therapy."
  else if ((c_score : Int) - (d_score : Int)).natAbs = 1 then
    "⚔️ An INCREDIBLE duel between " ++ challenger.name ++ " and "
      ++ defender.name ++ "! It came down to the wire — " ++ winner.name
      ++ " edged out " ++ loser.name ++ " " ++ toString (max c_score d_score)
      ++ "-" ++ toString (min c_score d_score)
      ++ ". The crowd (if any) went wild."
  else
    "⚔️ " ++ winner.name ++ " defeated " ++ loser.name ++ " "
      ++ toString (max c_score d_score) ++ "-" ++ toString (min c_score d_score)
      ++ " in a duel for the ages. Both fought with honor. Well, mostly."

/-- Dataclass `DuelResult` from `combat.py` (`final_score` dict split into
its two entries). -/
structure DuelResult where
  id : String
  challenger_id : String
  defender_id : String
  challenger_name : String
  defender_name : String
  winner_id : String
  loser_id : String
  rounds : List RoundData
  final_score_challenger : Nat
  final_score_defender : Nat
  spoils : Spoils
  narration : String
  tick : Nat := 0
deriving Repr, DecidableEq

/-- Function `resolve_duel` from `combat.py` (lines 97-210).  The fresh
`uuid` id is an explicit argument. -/
def resolve_duel (challenger defender : Agent) (tick : Nat) (wager_func : Int)
    (nearby_count : Nat) (rnd : Nat → RoundRand) (duel_id : String) :
    DuelResult :=
  let out := duelLoop challenger defender nearby_count rnd 3 1 0 0 []
  let rounds := out.1
  let challenger_score := out.2.1
  let defender_score := out.2.2
  let winner_id := if challenger_score > defender_score then challenger.id
    else defender.id
  let loser_id := if winner_id = challenger.id then defender.id
    else challenger.id
  { id := duel_id
    challenger_id := challenger.id
    defender_id := defender.id
    challenger_name := challenger.name
    defender_name := defender.name
    winner_id := winner_id
    loser_id := loser_id
    rounds := rounds
    final_score_challenger := challenger_score
    final_score_defender := defender_score
    spoils := { func_transferred := wager_func }
    narration := narrate_duel challenger defender rounds challenger_score
      defender_score (winner_id = challenger.id)
    tick := tick }

end Combat

-- ═══════════════════════════════════════════════════════════
-- exploration.py — quests
-- ═══════════════════════════════════════════════════════════

namespace Exploration

/-- One step dict of `Quest.steps`
(`{description, action_required, completed}`). -/
structure QuestStep where
  description : String
  action_required : String
  completed : Bool := false
deriving Repr, DecidableEq

/-- Dataclass `Quest` from `exploration.py` (the numeric/float `rewards`
dict is carried as exact rationals). -/
structure Quest where
  id : String
  name : String
  description : String
  difficulty : String
  steps : List QuestStep
  current_step : Nat := 0
  assigned_to : Option String := none
  status : String := "available"
  rewards : List (String × ℚ) := []
  created_tick : Nat := 0
  completed_tick : Nat := 0
deriving Repr, DecidableEq

/-- Python `needle in haystack` on strings: substring containment. -/
def pyInStr (needle haystack : String) : Bool :=
  decide (needle.data <:+: haystack.data)

/-- The result dict of `advance_quest` (flags only; the echoed
quest/rewards/next-step payloads are recoverable from the updated state). -/
structure AdvanceResult where
  success : Bool
  error : Option String := none
  quest_completed : Bool := false
  step_completed : Bool := false
deriving Repr, DecidableEq

/-- Method `ExplorationEngine.advance_quest` from `exploration.py` (lines
447-486), acting on the engine's `quests` dict: the action matches the
current step when it is a SUBSTRING of the step's `action_required` tag
(`if action in current_step.get("action_required", "")`).  When
`current_step` indexes past the step list Python would raise `IndexError`
(unreachable for quests the engine keeps "active": completing the final
step flips the status to "completed"); we return a tagged error there. -/
def advance_quest (quests : List (String × Quest)) (agent : Agent)
    (quest_id action : String) (tick : Nat) :
    AdvanceResult × List (String × Quest) :=
  match pyGet? quests quest_id with
  | none => (⟨false, some "Not your quest", false, false⟩, quests)
  | some quest =>
    if quest.assigned_to ≠ some agent.id then
      (⟨false, some "Not your quest", false, false⟩, quests)
    else if quest.status ≠ "active" then
      (⟨false, some ("Quest is " ++ quest.status), false, false⟩, quests)
    else
      match quest.steps.get? quest.current_step with
      | none => (⟨false, some "IndexError", false, false⟩, quests)
      | some current_step =>
        if pyInStr action current_step.action_required then
          let quest' := { quest with
            steps := quest.steps.set quest.current_step
              { current_step with completed := true }
            current_step := quest.current_step + 1 }
          if quest'.current_step ≥ quest'.steps.length then
            (⟨true, none, true, false⟩,
              pySet quests quest_id
                { quest' with status := "completed", completed_tick := tick })
          else
            (⟨true, none, false, true⟩, pySet quests quest_id quest')
        else
          (⟨false, some "Action doesn\x27t match current quest step", false, false⟩,
            quests)

end Exploration

end Monadologia

namespace Monadologia

/-- C2. For every pair of (distinct) agents' balances and every amount,
`transfer_func` preserves the sum of the two balances; a transfer whose
amount exceeds the sender's balance, or whose amount is not positive,
fails and leaves both balances unchanged. -/
theorem transfer_func_conserves_and_guards
    (s r amount : Int) :
    ((Economy.transfer_func s r amount).2.1 + (Economy.transfer_func s r amount).2.2
      = s + r)
    ∧ (amount > s ∨ amount ≤ 0 →
        (Economy.transfer_func s r amount).1 = false
        ∧ (Economy.transfer_func s r amount).2.1 = s
        ∧ (Economy.transfer_func s r amount).2.2 = r) := by
  constructor
  · unfold Economy.transfer_func
    by_cases h : s ≥ amount ∧ amount > 0
    · rw [if_pos h]
      show s - amount + (r + amount) = s + r
      ring
    · rw [if_neg h]
  · intro h
    have hn : ¬ (s ≥ amount ∧ amount > 0) := by omega
    unfold Economy.transfer_func
    rw [if_neg hn]
    exact ⟨rfl, rfl, rfl⟩

/-- Witness for C2: a concrete failing transfer (amount 150 exceeds the
sender's balance of 100) leaves balances 100 and 40 unchanged. -/
theorem transfer_func_conserves_and_guards_witness :
    (Economy.transfer_func 100 40 150).1 = false
    ∧ (Economy.transfer_func 100 40 150).2.1 = 100
    ∧ (Economy.transfer_func 100 40 150).2.2 = 40 :=
  (transfer_func_conserves_and_guards 100 40 150).2 (by decide)

/-- C1 (code bug): trade acceptance is NOT all-or-nothing.  An open offer
whose offering is an item the seller no longer holds is accepted with the
FUNC payment transferred buyer → seller while the offering is transferred
to nobody: the buyer (100 FUNC) ends at 90 with an empty inventory, the
seller ends at 110, and `accept_trade` still reports success.  The claim's
"both transfers or neither" is violated at this reachable state (the
seller can e.g. `sell_to_market` the item after creating the offer). -/
theorem accept_trade_stale_item_breaks_atomicity :
    (Trading.accept_trade
        { open_trades :=
            [("t1",
              { id := "t1", seller_id := "s1", seller_name := "Val",
                offering := Trading.TradeSpec.item "disco_ball",
                asking := Trading.TradeSpec.func 10 })] }
        { id := "b1", name := "Max", personality := "nerd", stats := [] }
        "t1"
        { id := "s1", name := "Val", personality := "schemer", stats := [],
          inventory := [] }
        7).2.2.2.success = true
    ∧ (Trading.accept_trade
        { open_trades :=
            [("t1",
              { id := "t1", seller_id := "s1", seller_name := "Val",
                offering := Trading.TradeSpec.item "disco_ball",
                asking := Trading.TradeSpec.func 10 })] }
        { id := "b1", name := "Max", personality := "nerd", stats := [] }
        "t1"
        { id := "s1", name := "Val", personality := "schemer", stats := [],
          inventory := [] }
        7).2.1.func_tokens = 90
    ∧ (Trading.accept_trade
        { open_trades :=
            [("t1",
              { id := "t1", seller_id := "s1", seller_name := "Val",
                offering := Trading.TradeSpec.item "disco_ball",
                asking := Trading.TradeSpec.func 10 })] }
        { id := "b1", name := "Max", personality := "nerd", stats := [] }
        "t1"
        { id := "s1", name := "Val", personality := "schemer", stats := [],
          inventory := [] }
        7).2.2.1.func_tokens = 110
    ∧ (Trading.accept_trade
        { open_trades :=
            [("t1",
              { id := "t1", seller_id := "s1", seller_name := "Val",
                offering := Trading.TradeSpec.item "disco_ball",
                asking := Trading.TradeSpec.func 10 })] }
        { id := "b1", name := "Max", personality := "nerd", stats := [] }
        "t1"
        { id := "s1", name := "Val", personality := "schemer", stats := [],
          inventory := [] }
        7).2.1.inventory = [] := by
  refine ⟨rfl, rfl, rfl, rfl⟩

/-- C8 (code bug): buying the last unit of a stock-1 item succeeds and
drops the supply to 0, but the price is raised by the low-water 1.3
multiplier (15 → 19), NOT by the zero-stock 2.0 multiplier (15 → 30): the
source's `elif supply <= 0` branch is shadowed by `if supply <= 2` and can
never run. -/
theorem buy_from_market_zero_stock_multiplier_dead :
    (Trading.buy_from_market { market_supply := [("karaoke_mic", 1)] }
        { id := "a1", name := "Pia", personality := "nerd", stats := [] }
        "karaoke_mic" 3).2.2.success = true
    ∧ pyGet (Trading.buy_from_market { market_supply := [("karaoke_mic", 1)] }
        { id := "a1", name := "Pia", personality := "nerd", stats := [] }
        "karaoke_mic" 3).1.market_supply "karaoke_mic" (0 : Int) = 0
    ∧ pyGet (Trading.buy_from_market { market_supply := [("karaoke_mic", 1)] }
        { id := "a1", name := "Pia", personality := "nerd", stats := [] }
        "karaoke_mic" 3).1.market_prices "karaoke_mic" (0 : Int) = 19
    ∧ Trading.pyInt13TenthsOf 15 = 19 ∧ (15 : Int) * 2 = 30 := by
  refine ⟨rfl, by decide, by decide, by decide, by decide⟩

namespace Gossip

/-- Binding a gossip through an agent appends exactly that agent's id to
the link list. -/
theorem bind_gossip_chainAgents (g : GossipMessage) (ag : Agent) (tick : Nat)
    (r : GossipRand) :
    chainAgents (bind_gossip g ag tick r) = chainAgents g ++ [ag.id] := by
  simp [bind_gossip, chainAgents]

/-- The chain invariant survives a bind by a fresh, non-originator agent. -/
theorem chainInv_bind {g : GossipMessage} {ag : Agent} {tick : Nat}
    {r : GossipRand} (h : chainInv g) (h1 : ag.id ∉ chainAgents g)
    (h2 : ¬ ag.id = g.origin_agent_id) :
    chainInv (bind_gossip g ag tick r) := by
  obtain ⟨hn, ho⟩ := h
  unfold chainInv
  rw [bind_gossip_chainAgents]
  refine ⟨?_, ?_⟩
  · simp [List.nodup_append, hn, h1]
  · simp only [List.mem_append, List.mem_singleton]
    rintro (hc | hc)
    · exact ho hc
    · exact h2 hc.symm

/-- Retirement only toggles the `active` flag, so it preserves the chain
invariant. -/
theorem retireIfStale_chainInv {g : GossipMessage} (tick : Nat)
    (h : chainInv g) : chainInv (retireIfStale tick g) := by
  unfold retireIfStale
  split
  · exact h
  · exact h

/-- Every single chain operation preserves the chain invariant. -/
theorem step_chainInv {g : GossipMessage} (op : ChainOp) (h : chainInv g) :
    chainInv (step g op) := by
  cases op with
  | propagate ag tick r =>
    simp only [step]
    unfold propagate
    by_cases hact : ¬ g.active
    · rw [if_pos hact]; exact h
    · rw [if_neg hact]
      by_cases hmem : ag.id ∈ chainAgents g ∨ ag.id = g.origin_agent_id
      · rw [if_pos hmem]; exact h
      · rw [if_neg hmem]
        push_neg at hmem
        exact chainInv_bind h hmem.1 hmem.2
  | autoSpread target lastLoc spreadRoll tick r =>
    simp only [step]
    split
    · exact h
    · apply retireIfStale_chainInv
      split
      · next hcond => exact chainInv_bind h hcond.2.2.1 hcond.2.2.2.1
      · exact h
  | deactivate =>
    simp only [step]
    exact h

/-- Running any list of operations preserves the chain invariant. -/
theorem runOps_chainInv {g : GossipMessage} (ops : List ChainOp)
    (h : chainInv g) : chainInv (runOps g ops) := by
  induction ops generalizing g with
  | nil => exact h
  | cons op rest ih => exact ih (step_chainInv op h)

end Gossip

/-- C3. Every gossip chain reachable from `start_chain` by any sequence of
player propagations, tick auto-spreads and deactivations has each agent id
at most once among its links and never the originator; and `propagate`
returns `none` (the engine leaves the chain unchanged) when the chain is
inactive, when the agent is the originator, or when the agent already has
a link in the chain. -/
theorem gossip_chain_invariant :
    (∀ (id agent_id content : String) (tick : Nat) (ops : List Gossip.ChainOp),
      Gossip.chainInv (Gossip.runOps (Gossip.start_chain id agent_id content tick) ops))
    ∧ (∀ (g : Gossip.GossipMessage) (agent : Agent) (tick : Nat)
        (r : Gossip.GossipRand),
        (¬ g.active ∨ agent.id = g.origin_agent_id ∨ agent.id ∈ Gossip.chainAgents g) →
        Gossip.propagate g agent tick r = none) := by
  constructor
  · intro id agent_id content tick ops
    apply Gossip.runOps_chainInv
    exact ⟨List.nodup_nil, List.not_mem_nil _⟩
  · rintro g agent tick r (hin | hor | hmem)
    · unfold Gossip.propagate
      rw [if_pos hin]
    · unfold Gossip.propagate
      by_cases hact : ¬ g.active
      · rw [if_pos hact]
      · rw [if_neg hact, if_pos (Or.inr hor)]
    · unfold Gossip.propagate
      by_cases hact : ¬ g.active
      · rw [if_pos hact]
      · rw [if_neg hact, if_pos (Or.inl hmem)]

/-- Witness for C3: the invariant holds for a concrete freshly started
chain after a propagate / auto-spread / deactivate sequence, and a
concrete propagation by the originator fails. -/
theorem gossip_chain_invariant_witness :
    Gossip.chainInv (Gossip.runOps (Gossip.start_chain "g1" "a0" "the pasta is legendary" 0)
      [Gossip.ChainOp.propagate
        { id := "a1", name := "Bea", personality := "nerd", stats := [] } 1 ⟨0, 1/2, 0⟩,
       Gossip.ChainOp.deactivate])
    ∧ Gossip.propagate (Gossip.start_chain "g1" "a0" "the pasta is legendary" 0)
      { id := "a0", name := "Ada", personality := "schemer", stats := [] } 1 ⟨0, 1/2, 0⟩
      = none := by
  constructor
  · exact gossip_chain_invariant.1 "g1" "a0" "the pasta is legendary" 0 _
  · exact gossip_chain_invariant.2 _ _ 1 _ (Or.inr (Or.inl rfl))

/-- C4 counterexample: the quorum is computed with `int()` truncation, not
`ceil`.  With 11 agents the claimed quorum is `max(3, ceil(0.3*11)) = 4`,
yet `resolve_proposal` already resolves an active proposal carrying only 3
votes (status flips to "passed"), so "resolution triggers only once the
total number of votes cast reaches max(3, ceil(0.3*totalAgents))" is false. -/
theorem resolve_proposal_resolves_below_ceil_quorum :
    (Politics.resolve_proposal
      { id := "p1", proposer_id := "a1", proposer_name := "Ada",
        title := "t", description := "d",
        votes := [("a1", "yes"), ("a2", "yes"), ("a3", "no")] }
      11 5).2.status = "passed"
    ∧ [("a1", "yes"), ("a2", "yes"), ("a3", "no")].length = 3
    ∧ 3 < max 3 ((3 * 11 + 9) / 10) := by
  refine ⟨by decide, by decide, by decide⟩

/-- C4 amended: resolution triggers only once the total number of votes
cast reaches `max(3, floor(0.3 * totalAgents))` (CPython `int()`
truncation); `resolve_proposal` never changes the proposal's status before
that quorum is met, and never changes its status more than once: a status
change only happens to an "active" proposal at quorum, sets the status to
"passed" or "failed", and any further resolve leaves the proposal
unchanged with no result. -/
theorem resolve_proposal_quorum_and_once (p : Politics.Proposal)
    (total_agents tick : Nat) :
    (p.status ≠ "active" ∨ p.votes.length < Politics.min_votes total_agents →
      Politics.resolve_proposal p total_agents tick = (none, p))
    ∧ ((Politics.resolve_proposal p total_agents tick).2.status ≠ p.status →
        p.status = "active"
        ∧ Politics.min_votes total_agents ≤ p.votes.length
        ∧ ((Politics.resolve_proposal p total_agents tick).2.status = "passed"
            ∨ (Politics.resolve_proposal p total_agents tick).2.status = "failed"))
    ∧ (∀ (n2 t2 : Nat),
        (Politics.resolve_proposal p total_agents tick).2.status ≠ "active" →
        Politics.resolve_proposal (Politics.resolve_proposal p total_agents tick).2 n2 t2
          = (none, (Politics.resolve_proposal p total_agents tick).2)) := by
  have hguard : ∀ (q : Politics.Proposal) (n t : Nat),
      q.status ≠ "active" ∨ q.votes.length < Politics.min_votes n →
      Politics.resolve_proposal q n t = (none, q) := by
    intro q n t hq
    unfold Politics.resolve_proposal
    rcases hq with hq | hq
    · rw [if_pos hq]
    · by_cases hs : q.status ≠ "active"
      · rw [if_pos hs]
      · rw [if_neg hs, if_pos hq]
  refine ⟨hguard p total_agents tick, ?_, ?_⟩
  · intro hch
    by_cases hs : p.status ≠ "active"
    · exact absurd (by rw [hguard p total_agents tick (Or.inl hs)]) hch
    · push_neg at hs
      by_cases hv : p.votes.length < Politics.min_votes total_agents
      · exact absurd (by rw [hguard p total_agents tick (Or.inr hv)]) hch
      · refine ⟨hs, le_of_not_lt hv, ?_⟩
        unfold Politics.resolve_proposal
        rw [if_neg (by simp [hs]), if_neg hv]
        cases hm : pyMaxBy (fun x => (x.2 : Int)) (Politics.tally_votes p) with
        | none =>
          exfalso
          apply hch
          unfold Politics.resolve_proposal
          rw [if_neg (by simp [hs]), if_neg hv, hm]
        | some winner =>
          by_cases hw : winner.1 ≠ "no"
          · left; simp [hw]
          · right; simp [hw]
  · intro n2 t2 hne
    exact hguard _ n2 t2 (Or.inl hne)

/-- Witness for C4 amended: with 11 agents an active proposal with only 2
votes is left unchanged, and re-resolving the concrete resolved ("passed")
proposal of the counterexample input is a no-op. -/
theorem resolve_proposal_quorum_and_once_witness :
    Politics.resolve_proposal
      { id := "p2", proposer_id := "a1", proposer_name := "Ada",
        title := "t", description := "d",
        votes := [("a1", "yes"), ("a2", "yes")] }
      11 5
    = (none,
      { id := "p2", proposer_id := "a1", proposer_name := "Ada",
        title := "t", description := "d",
        votes := [("a1", "yes"), ("a2", "yes")] }) :=
  (resolve_proposal_quorum_and_once
    { id := "p2", proposer_id := "a1", proposer_name := "Ada",
      title := "t", description := "d",
      votes := [("a1", "yes"), ("a2", "yes")] }
    11 5).1 (Or.inr (by decide))

namespace Parties

/-- When a vibe function signals failure, the state it hands back is the
input state with exactly its failure narration appended (axes untouched). -/
theorem vibe_fail_shape (v : Vibe) (sc : PartyState) (att : List Agent)
    (r : VibeRand) (h : (VIBE_FUNCTIONS v sc att r).2 = false) :
    (VIBE_FUNCTIONS v sc att r).1
      = { sc with vibe_log := sc.vibe_log ++ [failMsg v] } := by
  cases v with
  | chill => exact absurd h (by simp [VIBE_FUNCTIONS, vibe_chill])
  | karaoke =>
    by_cases hc : sc.energy < 20
    · show (vibe_karaoke sc att r).1 = _
      unfold vibe_karaoke
      rw [if_pos hc]
      rfl
    · refine absurd h ?_
      show ¬ (vibe_karaoke sc att r).2 = false
      unfold vibe_karaoke
      rw [if_neg hc]
      dsimp only
      split
      · simp
      · split <;> simp
  | drama =>
    by_cases hc : sc.chaos < 10 ∧ sc.energy < 25
    · show (vibe_drama sc att r).1 = _
      unfold vibe_drama
      rw [if_pos hc]
      rfl
    · refine absurd h ?_
      show ¬ (vibe_drama sc att r).2 = false
      unfold vibe_drama
      rw [if_neg hc]
      dsimp only
      split <;> simp
  | mystery =>
    refine absurd h ?_
    show ¬ (vibe_mystery sc att r).2 = false
    unfold vibe_mystery
    split
    · simp
    · split <;> simp
  | dance =>
    by_cases hc : sc.energy < 30
    · show (vibe_dance sc att r).1 = _
      unfold vibe_dance
      rw [if_pos hc]
      rfl
    · refine absurd h ?_
      show ¬ (vibe_dance sc att r).2 = false
      unfold vibe_dance
      rw [if_neg hc]
      simp
  | debate =>
    refine absurd h ?_
    show ¬ (vibe_debate sc att r).2 = false
    unfold vibe_debate
    dsimp only
    split <;> simp
  | potluck =>
    refine absurd h ?_
    show ¬ (vibe_potluck sc att r).2 = false
    unfold vibe_potluck
    dsimp only
    split <;> simp

end Parties

/-- C5 amended: when an effect function in a composed vibe sequence
signals "no effect", composition stops immediately (the remaining vibes
never run); the final loop state keeps the numeric axes of the clamped
state as of the last successful effect, but the failing effect has
appended its failure narration, so the log holds one MORE entry than the
state as of the last successful effect (the claim's "exactly one entry"
for a one-success prefix is off by the failure narration). -/
theorem vibe_failure_short_circuit (s : Parties.PartyState) (v : Parties.Vibe)
    (rest : List Parties.Vibe) (att : List Agent)
    (rnd : Nat → Parties.VibeRand) (k : Nat)
    (h : (Parties.VIBE_FUNCTIONS v (Parties.clampAxes s) att (rnd k)).2 = false) :
    Parties.composeLoop att rnd s (v :: rest) k
      = { Parties.clampAxes s with vibe_log := s.vibe_log ++ [Parties.failMsg v] }
    ∧ (Parties.composeLoop att rnd s (v :: rest) k).energy = (Parties.clampAxes s).energy
    ∧ (Parties.composeLoop att rnd s (v :: rest) k).chaos = (Parties.clampAxes s).chaos
    ∧ (Parties.composeLoop att rnd s (v :: rest) k).bonding = (Parties.clampAxes s).bonding
    ∧ (Parties.composeLoop att rnd s (v :: rest) k).fun_ = (Parties.clampAxes s).fun_
    ∧ (Parties.composeLoop att rnd s (v :: rest) k).vibe_log.length
        = s.vibe_log.length + 1 := by
  have hstep : Parties.composeLoop att rnd s (v :: rest) k
      = (Parties.VIBE_FUNCTIONS v (Parties.clampAxes s) att (rnd k)).1 := by
    simp only [Parties.composeLoop]
    rw [h]
    simp
  have hshape := Parties.vibe_fail_shape v (Parties.clampAxes s) att (rnd k) h
  rw [hstep, hshape]
  exact ⟨rfl, rfl, rfl, rfl, rfl, by simp [Parties.clampAxes]⟩

/-- Witness for C5 amended: a dance vibe at energy 20 fails and the log
grows from 0 to 1 entries while composition stops. -/
theorem vibe_failure_short_circuit_witness :
    (Parties.composeLoop [] (fun _ => (⟨50, 1/2, 0⟩ : Parties.VibeRand))
        { energy := 20 } [Parties.Vibe.dance] 0).vibe_log.length
      = ([] : List String).length + 1 :=
  (vibe_failure_short_circuit { energy := 20 } Parties.Vibe.dance [] []
    (fun _ => (⟨50, 1/2, 0⟩ : Parties.VibeRand)) 0 (by decide)).2.2.2.2.2

/-- C5 counterexample: composing `[chill, chill, dance]` (these three
vibes are deterministic) runs two successful effects, then dance fails at
energy 20; the claim says the final state is the state as of the last
successful effect, but the returned state carries THREE log entries versus
the two of the last successful state, and differs from the (re-clamped)
last successful state. -/
theorem kleisli_compose_keeps_failed_vibe_narration :
    (Parties.kleisli_compose [Parties.Vibe.chill, Parties.Vibe.chill, Parties.Vibe.dance]
        [] (fun _ => (⟨50, 1/2, 0⟩ : Parties.VibeRand))).vibe_log.length = 3
    ∧ (Parties.composeLoop [] (fun _ => (⟨50, 1/2, 0⟩ : Parties.VibeRand))
        Parties.initialPartyState [Parties.Vibe.chill, Parties.Vibe.chill] 0).vibe_log.length = 2
    ∧ Parties.kleisli_compose [Parties.Vibe.chill, Parties.Vibe.chill, Parties.Vibe.dance]
        [] (fun _ => (⟨50, 1/2, 0⟩ : Parties.VibeRand))
      ≠ Parties.clampAxes (Parties.composeLoop [] (fun _ => (⟨50, 1/2, 0⟩ : Parties.VibeRand))
          Parties.initialPartyState [Parties.Vibe.chill, Parties.Vibe.chill] 0) := by
  refine ⟨rfl, rfl, by decide⟩

/-- Bounds of the four-axis clamp. -/
theorem clampAxes_bounds (s : Parties.PartyState) :
    0 ≤ (Parties.clampAxes s).energy ∧ (Parties.clampAxes s).energy ≤ 100
    ∧ 0 ≤ (Parties.clampAxes s).chaos ∧ (Parties.clampAxes s).chaos ≤ 100
    ∧ 0 ≤ (Parties.clampAxes s).bonding ∧ (Parties.clampAxes s).bonding ≤ 100
    ∧ 0 ≤ (Parties.clampAxes s).fun_ ∧ (Parties.clampAxes s).fun_ ≤ 100 := by
  unfold Parties.clampAxes
  refine ⟨?_, ?_, ?_, ?_, ?_, ?_, ?_, ?_⟩ <;> dsimp only <;> omega

/-- C6 counterexample: the axes are NOT in [0,100] after every step — five
chill vibes in a row leave bonding at 105 immediately after the fifth step
(the clamp only runs before the next step and after the loop); the final
returned state is clamped back to 100. -/
theorem composeLoop_step_exceeds_range :
    (Parties.composeLoop [] (fun _ => (⟨50, 1/2, 0⟩ : Parties.VibeRand))
        Parties.initialPartyState (List.replicate 5 Parties.Vibe.chill) 0).bonding = 105
    ∧ ¬ ((Parties.composeLoop [] (fun _ => (⟨50, 1/2, 0⟩ : Parties.VibeRand))
        Parties.initialPartyState (List.replicate 5 Parties.Vibe.chill) 0).bonding ≤ 100)
    ∧ (Parties.kleisli_compose (List.replicate 5 Parties.Vibe.chill) []
        (fun _ => (⟨50, 1/2, 0⟩ : Parties.VibeRand))).bonding = 100 := by
  refine ⟨rfl, by decide, rfl⟩

/-- C6 amended: the four axes are clamped into [0,100] before every step
(each vibe function receives `clampAxes` of the running state) and the
final state returned by `kleisli_compose` has all four axes in [0,100];
immediately after a step an axis can transiently leave the range (see the
counterexample). -/
theorem kleisli_compose_axes_in_range (vibes : List Parties.Vibe)
    (att : List Agent) (rnd : Nat → Parties.VibeRand) (s : Parties.PartyState) :
    (0 ≤ (Parties.clampAxes s).energy ∧ (Parties.clampAxes s).energy ≤ 100
      ∧ 0 ≤ (Parties.clampAxes s).chaos ∧ (Parties.clampAxes s).chaos ≤ 100
      ∧ 0 ≤ (Parties.clampAxes s).bonding ∧ (Parties.clampAxes s).bonding ≤ 100
      ∧ 0 ≤ (Parties.clampAxes s).fun_ ∧ (Parties.clampAxes s).fun_ ≤ 100)
    ∧ (0 ≤ (Parties.kleisli_compose vibes att rnd).energy
      ∧ (Parties.kleisli_compose vibes att rnd).energy ≤ 100
      ∧ 0 ≤ (Parties.kleisli_compose vibes att rnd).chaos
      ∧ (Parties.kleisli_compose vibes att rnd).chaos ≤ 100
      ∧ 0 ≤ (Parties.kleisli_compose vibes att rnd).bonding
      ∧ (Parties.kleisli_compose vibes att rnd).bonding ≤ 100
      ∧ 0 ≤ (Parties.kleisli_compose vibes att rnd).fun_
      ∧ (Parties.kleisli_compose vibes att rnd).fun_ ≤ 100) :=
  ⟨clampAxes_bounds s, clampAxes_bounds _⟩

namespace Combat

/-- A round-winner string is either "challenger" or "defender". -/
theorem ite_winner_cases (x y : Int) :
    (if x ≥ y then "challenger" else "defender") = "challenger"
    ∨ (if x ≥ y then "challenger" else "defender") = "defender" := by
  split
  · exact Or.inl rfl
  · exact Or.inr rfl

/-- Every round names either the challenger or the defender as winner. -/
theorem playRound_winner_cases (c d : Agent) (rn cs ds n : Nat) (rr : RoundRand) :
    (playRound c d rn cs ds n rr).winner = "challenger"
    ∨ (playRound c d rn cs ds n rr).winner = "defender" :=
  ite_winner_cases _ _

/-- The three-round loop ends in one of exactly four score lines:
2-0 or 0-2 after two rounds, 2-1 or 1-2 after three. -/
theorem duelLoop_outcomes (c d : Agent) (n : Nat) (rnd : Nat → RoundRand) :
    ((duelLoop c d n rnd 3 1 0 0 []).2.1 = 2
      ∧ (duelLoop c d n rnd 3 1 0 0 []).2.2 = 0
      ∧ (duelLoop c d n rnd 3 1 0 0 []).1.length = 2)
    ∨ ((duelLoop c d n rnd 3 1 0 0 []).2.1 = 0
      ∧ (duelLoop c d n rnd 3 1 0 0 []).2.2 = 2
      ∧ (duelLoop c d n rnd 3 1 0 0 []).1.length = 2)
    ∨ ((duelLoop c d n rnd 3 1 0 0 []).2.1 = 2
      ∧ (duelLoop c d n rnd 3 1 0 0 []).2.2 = 1
      ∧ (duelLoop c d n rnd 3 1 0 0 []).1.length = 3)
    ∨ ((duelLoop c d n rnd 3 1 0 0 []).2.1 = 1
      ∧ (duelLoop c d n rnd 3 1 0 0 []).2.2 = 2
      ∧ (duelLoop c d n rnd 3 1 0 0 []).1.length = 3) := by
  rcases playRound_winner_cases c d 1 0 0 n (rnd 1) with h1 | h1
  · rcases playRound_winner_cases c d 2 1 0 n (rnd 2) with h2 | h2
    · refine Or.inl ?_
      simp [duelLoop, h1, h2]
    · rcases playRound_winner_cases c d 3 1 1 n (rnd 3) with h3 | h3
      · refine Or.inr (Or.inr (Or.inl ?_))
        simp [duelLoop, h1, h2, h3]
      · refine Or.inr (Or.inr (Or.inr ?_))
        simp [duelLoop, h1, h2, h3]
  · rcases playRound_winner_cases c d 2 0 1 n (rnd 2) with h2 | h2
    · rcases playRound_winner_cases c d 3 1 1 n (rnd 3) with h3 | h3
      · refine Or.inr (Or.inr (Or.inl ?_))
        simp [duelLoop, h1, h2, h3]
      · refine Or.inr (Or.inr (Or.inr ?_))
        simp [duelLoop, h1, h2, h3]
    · refine Or.inr (Or.inl ?_)
      simp [duelLoop, h1, h2]

end Combat

/-- C7. Every duel terminates within 3 rounds — exactly 2 when one side
opens 2-0 (the early exit as soon as a side reaches two round-wins),
exactly 3 otherwise — and always produces a strict outcome: the two final
scores differ, the winner is precisely the side with the higher score, and
(for distinct duellists) winner and loser ids differ. -/
theorem resolve_duel_three_rounds_strict_winner (challenger defender : Agent)
    (tick : Nat) (wager : Int) (nearby : Nat) (rnd : Nat → Combat.RoundRand)
    (duel_id : String) (hid : challenger.id ≠ defender.id) :
    (Combat.resolve_duel challenger defender tick wager nearby rnd duel_id).rounds.length ≤ 3
    ∧ (((Combat.resolve_duel challenger defender tick wager nearby rnd duel_id).final_score_challenger = 2 ∧ (Combat.resolve_duel challenger defender tick wager nearby rnd duel_id).final_score_defender = 0
        ∧ (Combat.resolve_duel challenger defender tick wager nearby rnd duel_id).rounds.length = 2)
      ∨ ((Combat.resolve_duel challenger defender tick wager nearby rnd duel_id).final_score_challenger = 0 ∧ (Combat.resolve_duel challenger defender tick wager nearby rnd duel_id).final_score_defender = 2
        ∧ (Combat.resolve_duel challenger defender tick wager nearby rnd duel_id).rounds.length = 2)
      ∨ ((Combat.resolve_duel challenger defender tick wager nearby rnd duel_id).final_score_challenger = 2 ∧ (Combat.resolve_duel challenger defender tick wager nearby rnd duel_id).final_score_defender = 1
        ∧ (Combat.resolve_duel challenger defender tick wager nearby rnd duel_id).rounds.length = 3)
      ∨ ((Combat.resolve_duel challenger defender tick wager nearby rnd duel_id).final_score_challenger = 1 ∧ (Combat.resolve_duel challenger defender tick wager nearby rnd duel_id).final_score_defender = 2
        ∧ (Combat.resolve_duel challenger defender tick wager nearby rnd duel_id).rounds.length = 3))
    ∧ (Combat.resolve_duel challenger defender tick wager nearby rnd duel_id).final_score_challenger ≠ (Combat.resolve_duel challenger defender tick wager nearby rnd duel_id).final_score_defender
    ∧ ((Combat.resolve_duel challenger defender tick wager nearby rnd duel_id).final_score_challenger > (Combat.resolve_duel challenger defender tick wager nearby rnd duel_id).final_score_defender
        ↔ (Combat.resolve_duel challenger defender tick wager nearby rnd duel_id).winner_id = challenger.id)
    ∧ (((Combat.resolve_duel challenger defender tick wager nearby rnd duel_id).winner_id = challenger.id ∧ (Combat.resolve_duel challenger defender tick wager nearby rnd duel_id).loser_id = defender.id)
      ∨ ((Combat.resolve_duel challenger defender tick wager nearby rnd duel_id).winner_id = defender.id ∧ (Combat.resolve_duel challenger defender tick wager nearby rnd duel_id).loser_id = challenger.id))
    ∧ (Combat.resolve_duel challenger defender tick wager nearby rnd duel_id).winner_id ≠ (Combat.resolve_duel challenger defender tick wager nearby rnd duel_id).loser_id := by
  have hcs : (Combat.resolve_duel challenger defender tick wager nearby rnd duel_id).final_score_challenger = (Combat.duelLoop challenger defender nearby rnd 3 1 0 0 []).2.1 := rfl
  have hds : (Combat.resolve_duel challenger defender tick wager nearby rnd duel_id).final_score_defender = (Combat.duelLoop challenger defender nearby rnd 3 1 0 0 []).2.2 := rfl
  have hrl : (Combat.resolve_duel challenger defender tick wager nearby rnd duel_id).rounds.length = (Combat.duelLoop challenger defender nearby rnd 3 1 0 0 []).1.length := rfl
  have hwin : (Combat.resolve_duel challenger defender tick wager nearby rnd duel_id).winner_id = (if (Combat.duelLoop challenger defender nearby rnd 3 1 0 0 []).2.1 > (Combat.duelLoop challenger defender nearby rnd 3 1 0 0 []).2.2 then challenger.id else defender.id) := rfl
  have hlos : (Combat.resolve_duel challenger defender tick wager nearby rnd duel_id).loser_id = (if (Combat.resolve_duel challenger defender tick wager nearby rnd duel_id).winner_id = challenger.id then defender.id else challenger.id) := rfl
  rcases Combat.duelLoop_outcomes challenger defender nearby rnd with
    ⟨h1, h2, h3⟩ | ⟨h1, h2, h3⟩ | ⟨h1, h2, h3⟩ | ⟨h1, h2, h3⟩
  · have hw : (Combat.resolve_duel challenger defender tick wager nearby rnd duel_id).winner_id = challenger.id := by
      rw [hwin, h1, h2, if_pos (by norm_num)]
    have hl : (Combat.resolve_duel challenger defender tick wager nearby rnd duel_id).loser_id = defender.id := by
      rw [hlos, hw, if_pos rfl]
    rw [hcs, hds, hrl, h1, h2, h3, hw, hl]
    refine ⟨by omega, Or.inl ⟨rfl, rfl, rfl⟩, by omega, ?_, Or.inl ⟨rfl, rfl⟩, hid⟩
    constructor
    · intro _; rfl
    · intro _; omega
  · have hw : (Combat.resolve_duel challenger defender tick wager nearby rnd duel_id).winner_id = defender.id := by
      rw [hwin, h1, h2, if_neg (by norm_num)]
    have hl : (Combat.resolve_duel challenger defender tick wager nearby rnd duel_id).loser_id = challenger.id := by
      rw [hlos, hw, if_neg (Ne.symm hid)]
    rw [hcs, hds, hrl, h1, h2, h3, hw, hl]
    refine ⟨by omega, Or.inr (Or.inl ⟨rfl, rfl, rfl⟩), by omega, ?_,
      Or.inr ⟨rfl, rfl⟩, Ne.symm hid⟩
    constructor
    · intro hgt; omega
    · intro hdc; exact absurd hdc (Ne.symm hid)
  · have hw : (Combat.resolve_duel challenger defender tick wager nearby rnd duel_id).winner_id = challenger.id := by
      rw [hwin, h1, h2, if_pos (by norm_num)]
    have hl : (Combat.resolve_duel challenger defender tick wager nearby rnd duel_id).loser_id = defender.id := by
      rw [hlos, hw, if_pos rfl]
    rw [hcs, hds, hrl, h1, h2, h3, hw, hl]
    refine ⟨by omega, Or.inr (Or.inr (Or.inl ⟨rfl, rfl, rfl⟩)), by omega, ?_,
      Or.inl ⟨rfl, rfl⟩, hid⟩
    constructor
    · intro _; rfl
    · intro _; omega
  · have hw : (Combat.resolve_duel challenger defender tick wager nearby rnd duel_id).winner_id = defender.id := by
      rw [hwin, h1, h2, if_neg (by norm_num)]
    have hl : (Combat.resolve_duel challenger defender tick wager nearby rnd duel_id).loser_id = challenger.id := by
      rw [hlos, hw, if_neg (Ne.symm hid)]
    rw [hcs, hds, hrl, h1, h2, h3, hw, hl]
    refine ⟨by omega, Or.inr (Or.inr (Or.inr ⟨rfl, rfl, rfl⟩)), by omega, ?_,
      Or.inr ⟨rfl, rfl⟩, Ne.symm hid⟩
    constructor
    · intro hgt; omega
    · intro hdc; exact absurd hdc (Ne.symm hid)

/-- Witness for C7: a concrete duel between two distinct default nerds
(every ability roll misses) ends with distinct winner and loser. -/
theorem resolve_duel_three_rounds_strict_winner_witness :
    (Combat.resolve_duel { id := "c1", name := "Kit", personality := "nerd", stats := [] }
        { id := "d1", name := "Sam", personality := "nerd", stats := [] }
        0 0 0 (fun _ => (⟨0, 0, 0, 1, 1, 0, 0⟩ : Combat.RoundRand)) "duel1").winner_id
      ≠ (Combat.resolve_duel { id := "c1", name := "Kit", personality := "nerd", stats := [] }
        { id := "d1", name := "Sam", personality := "nerd", stats := [] }
        0 0 0 (fun _ => (⟨0, 0, 0, 1, 1, 0, 0⟩ : Combat.RoundRand)) "duel1").loser_id :=
  (resolve_duel_three_rounds_strict_winner
    { id := "c1", name := "Kit", personality := "nerd", stats := [] }
    { id := "d1", name := "Sam", personality := "nerd", stats := [] }
    0 0 0 (fun _ => (⟨0, 0, 0, 1, 1, 0, 0⟩ : Combat.RoundRand)) "duel1"
    (by decide)).2.2.2.2.2

/-- C9. In every duel round the comparison is `challenger_roll >=
defender_roll`: on equal rolls the round is awarded to the challenger. -/
theorem duel_round_tie_goes_to_challenger (c d : Agent) (rn cs ds n : Nat)
    (rr : Combat.RoundRand)
    (h : (Combat.playRound c d rn cs ds n rr).challenger_roll
        = (Combat.playRound c d rn cs ds n rr).defender_roll) :
    (Combat.playRound c d rn cs ds n rr).winner = "challenger" := by
  have hch : (Combat.playRound c d rn cs ds n rr).winner
      = if (Combat.playRound c d rn cs ds n rr).challenger_roll
            ≥ (Combat.playRound c d rn cs ds n rr).defender_roll
        then "challenger" else "defender" := rfl
  rw [hch, if_pos (ge_of_eq h)]

/-- Witness for C9: two agents with identical (empty) stat dicts, an
ability-less personality tag and swing 0 roll 5 each; the tied round goes
to the challenger. -/
theorem duel_round_tie_goes_to_challenger_witness :
    (Combat.playRound { id := "c1", name := "Kit", personality := "landlord", stats := [] }
      { id := "d1", name := "Sam", personality := "landlord", stats := [] }
      1 0 0 0 (⟨0, 0, 0, 1, 1, 0, 0⟩ : Combat.RoundRand)).winner = "challenger" :=
  duel_round_tie_goes_to_challenger
    { id := "c1", name := "Kit", personality := "landlord", stats := [] }
    { id := "d1", name := "Sam", personality := "landlord", stats := [] }
    1 0 0 0 (⟨0, 0, 0, 1, 1, 0, 0⟩ : Combat.RoundRand) (by decide)

/-- Helper: updating a key in a Python dict makes the lookup of that key
return the new value. -/
theorem pyGet_pySet_same {α : Type} (l : List (String × α)) (k : String) (v : α) :
    pyGet? (pySet l k v) k = some v := by
  induction l with
  | nil => simp [pySet, pyGet?]
  | cons p rest ih =>
    unfold pySet
    by_cases h : p.1 == k
    · simp [pyGet?, List.find?, h]
    · rw [if_neg h]
      unfold pyGet? at ih ⊢
      simp only [List.find?, h]
      exact ih

/-- Helper: the empty string is a substring of every string. -/
theorem pyInStr_empty (t : String) : Exploration.pyInStr "" t = true := by
  unfold Exploration.pyInStr
  rw [decide_eq_true_eq]
  exact ⟨[], t.data, rfl⟩

/-- C10. `advance_quest` matches the action tag by SUBSTRING containment
(`action in step["action_required"]`), not equality: for an active quest
assigned to the caller whose step pointer is in range, it succeeds exactly
when the provided action is a substring of the current step's required
tag; on success the stored quest's pointer advances by one with the step
marked completed; and in particular the empty action string always matches
and succeeds. -/
theorem advance_quest_substring_match (quests : List (String × Exploration.Quest))
    (agent : Agent) (quest_id action : String) (tick : Nat)
    (quest : Exploration.Quest) (stp : Exploration.QuestStep)
    (hq : pyGet? quests quest_id = some quest)
    (ha : quest.assigned_to = some agent.id)
    (hs : quest.status = "active")
    (hstep : quest.steps.get? quest.current_step = some stp) :
    ((Exploration.advance_quest quests agent quest_id action tick).1.success = true
      ↔ Exploration.pyInStr action stp.action_required = true)
    ∧ ((Exploration.advance_quest quests agent quest_id action tick).1.success = true →
        ∃ q : Exploration.Quest,
          pyGet? (Exploration.advance_quest quests agent quest_id action tick).2 quest_id
            = some q
          ∧ q.current_step = quest.current_step + 1
          ∧ q.steps.get? quest.current_step = some { stp with completed := true })
    ∧ (action = "" →
        (Exploration.advance_quest quests agent quest_id action tick).1.success = true) := by
  have hlt : quest.current_step < quest.steps.length := by
    by_contra h'
    push_neg at h'
    rw [List.get?_eq_none.mpr h'] at hstep
    cases hstep
  unfold Exploration.advance_quest
  rw [hq]
  dsimp only
  rw [if_neg (fun hcon => hcon ha)]
  rw [if_neg (fun hcon => hcon hs)]
  simp only [hstep]
  by_cases hin : Exploration.pyInStr action stp.action_required = true
  · rw [if_pos hin]
    split
    · refine ⟨by simp [hin], ?_, fun _ => rfl⟩
      intro _
      refine ⟨_, pyGet_pySet_same _ _ _, rfl, ?_⟩
      exact List.get?_set_eq_of_lt _ hlt
    · refine ⟨by simp [hin], ?_, fun _ => rfl⟩
      intro _
      refine ⟨_, pyGet_pySet_same _ _ _, rfl, ?_⟩
      exact List.get?_set_eq_of_lt _ hlt
  · rw [if_neg hin]
    refine ⟨by simp [hin], fun hcon => absurd hcon (by simp), ?_⟩
    intro he
    exact absurd (by rw [he]; exact pyInStr_empty _) hin

/-- Witness for C10: the empty action string advances the first step of a
concrete active Basement Mystery quest. -/
theorem advance_quest_substring_match_witness :
    (Exploration.advance_quest
      [("q1",
        { id := "q1", name := "The Basement Mystery",
          description := "Strange sounds come from the basement. Investigate.",
          difficulty := "medium",
          steps := [⟨"Go to the basement", "move_to_basement", false⟩,
                    ⟨"Explore the basement", "explore", false⟩],
          assigned_to := some "a1", status := "active" })]
      { id := "a1", name := "Ada", personality := "nerd", stats := [] }
      "q1" "" 4).1.success = true :=
  (advance_quest_substring_match
    [("q1",
      { id := "q1", name := "The Basement Mystery",
        description := "Strange sounds come from the basement. Investigate.",
        difficulty := "medium",
        steps := [⟨"Go to the basement", "move_to_basement", false⟩,
                  ⟨"Explore the basement", "explore", false⟩],
        assigned_to := some "a1", status := "active" })]
    { id := "a1", name := "Ada", personality := "nerd", stats := [] }
    "q1" "" 4
    { id := "q1", name := "The Basement Mystery",
      description := "Strange sounds come from the basement. Investigate.",
      difficulty := "medium",
      steps := [⟨"Go to the basement", "move_to_basement", false⟩,
                ⟨"Explore the basement", "explore", false⟩],
      assigned_to := some "a1", status := "active" }
    ⟨"Go to the basement", "move_to_basement", false⟩
    rfl rfl rfl rfl).2.2 rfl

end Monadologia
